import Mathlib

set_option linter.unusedVariables false

/-!
Verification of the `@ethan-utils/axios` request-client wrapper
(`packages/axios/base.ts` and `packages/axios/index.ts`) of the
monorepo-vue-starter repository, via a shallow embedding in Lean 4.

JavaScript runtime values that flow through the wrapper (response bodies,
thrown values) are modelled by `JsValue`; the settled result of an
underlying axios call is modelled by `CallOutcome`; the module-level
singleton is modelled by explicit state passing (`SingletonState`).
-/

namespace AxiosWrapper

/-- A JavaScript runtime value, as far as the wrapper inspects one:
`null`, `undefined`, booleans, numbers, strings and plain objects
(an object is a field list; lookup takes the first binding of a key). -/
inductive JsValue where
  | null
  | undefined
  | bool (b : Bool)
  | num (n : Int)
  | str (s : String)
  | obj (fields : List (String × JsValue))

/-- JavaScript truthiness of a `JsValue` (`if (v)`): `null`, `undefined`,
`false`, `0` and `""` are falsy, everything else is truthy. -/
def jsTruthy : JsValue → Bool
  | JsValue.null => false
  | JsValue.undefined => false
  | JsValue.bool b => b
  | JsValue.num n => n != 0
  | JsValue.str s => s != ""
  | JsValue.obj _ => true

/-- JavaScript property read `v[key]` on a non-nullish value: on an object,
the field's value or `undefined` when absent; on any other (non-nullish)
value, `undefined`. -/
def fieldOrUndefined (v : JsValue) (key : String) : JsValue :=
  match v with
  | JsValue.obj fields => (fields.lookup key).getD JsValue.undefined
  | _ => JsValue.undefined

/-- Strict equality `v === 401`. -/
def jsIs401 (v : JsValue) : Bool :=
  match v with
  | JsValue.num n => n == 401
  | _ => false

/-- Whether a value has the `BaseResponse` (Envelope) shape
`{ data, msg, code }`: an object with a `data` field of any type, a string
`msg` field and a numeric `code` field. -/
def isEnvelope (v : JsValue) : Bool :=
  match v with
  | JsValue.obj fields =>
      (fields.lookup "data").isSome
        && (match fields.lookup "msg" with
            | some (JsValue.str _) => true
            | _ => false)
        && (match fields.lookup "code" with
            | some (JsValue.num _) => true
            | _ => false)
  | _ => false

/-- Whether a value is a well-formed error envelope
`{ data: null, msg: string, code: number }`. -/
def isNullDataEnvelope (v : JsValue) : Bool :=
  match v with
  | JsValue.obj fields =>
      (match fields.lookup "data" with
       | some JsValue.null => true
       | _ => false)
        && (match fields.lookup "msg" with
            | some (JsValue.str _) => true
            | _ => false)
        && (match fields.lookup "code" with
            | some (JsValue.num _) => true
            | _ => false)
  | _ => false

/-- An HTTP response as axios delivers it to the wrapper: the transport
status code and the parsed body. -/
structure AxiosResponse where
  status : Nat
  data : JsValue

/-- A caught value in the wrapper's `catch` blocks, split the way
`handleError` discriminates it: an `AxiosError` (with its `message` and
optional attached `response`), a generic `Error` (with its `message`),
or any other thrown value. -/
inductive JsError where
  | axiosErr (message : String) (response : Option AxiosResponse)
  | genericErr (message : String)
  | thrownValue (v : JsValue)

/-- The object literal `{ msg, code, data: null }` synthesized by
`handleError` (field order as in the source). -/
def synthEnvelope (msg : String) (code : Int) : JsValue :=
  JsValue.obj [("msg", JsValue.str msg), ("code", JsValue.num code), ("data", JsValue.null)]

/-- `handleError` from `packages/axios/index.ts`: if the error is an
`AxiosError` and `error.response?.data` is truthy, return that body
verbatim; otherwise for an `AxiosError` synthesize
`{ msg: message || '请求发生错误', code: response?.status || 500, data: null }`;
for a generic `Error` synthesize `{ msg: error.message, code: 500, data: null }`;
for any other thrown value synthesize `{ msg: '未知错误', code: 500, data: null }`. -/
def handleError : JsError → JsValue
  | JsError.axiosErr message (some r) =>
      if jsTruthy r.data then r.data
      else
        synthEnvelope (if message == "" then "请求发生错误" else message)
          (if r.status == 0 then 500 else (r.status : Int))
  | JsError.axiosErr message none =>
      synthEnvelope (if message == "" then "请求发生错误" else message) 500
  | JsError.genericErr message => synthEnvelope message 500
  | JsError.thrownValue _ => synthEnvelope "未知错误" 500

/-- The settled result of one underlying axios call (`await api.get(...)`
etc.): fulfilled with a response, or rejected with a thrown error. -/
inductive CallOutcome where
  | success (response : AxiosResponse)
  | failure (error : JsError)

namespace Facade

/-- Enveloped `get`: `try { return (await api.get(url, config)).data } catch (e) { return handleError(e) }`. -/
def get (url : String) (outcome : CallOutcome) : JsValue :=
  match outcome with
  | CallOutcome.success response => response.data
  | CallOutcome.failure error => handleError error

/-- Enveloped `post` (same body with `api.post(url, data, config)`). -/
def post (url : String) (data : JsValue) (outcome : CallOutcome) : JsValue :=
  match outcome with
  | CallOutcome.success response => response.data
  | CallOutcome.failure error => handleError error

/-- Enveloped `put`. -/
def put (url : String) (data : JsValue) (outcome : CallOutcome) : JsValue :=
  match outcome with
  | CallOutcome.success response => response.data
  | CallOutcome.failure error => handleError error

/-- Enveloped `delete`. -/
def delete (url : String) (outcome : CallOutcome) : JsValue :=
  match outcome with
  | CallOutcome.success response => response.data
  | CallOutcome.failure error => handleError error

/-- Enveloped `patch`. -/
def patch (url : String) (data : JsValue) (outcome : CallOutcome) : JsValue :=
  match outcome with
  | CallOutcome.success response => response.data
  | CallOutcome.failure error => handleError error

/-- Raw `getWithoutBaseResponse`: `return (await api.get(url, config)).data`
with no try/catch — a rejection of the underlying call propagates unchanged. -/
def getWithoutBaseResponse (url : String) (outcome : CallOutcome) : Except JsError JsValue :=
  match outcome with
  | CallOutcome.success response => Except.ok response.data
  | CallOutcome.failure error => Except.error error

/-- Raw `postWithoutBaseResponse`. -/
def postWithoutBaseResponse (url : String) (data : JsValue) (outcome : CallOutcome) :
    Except JsError JsValue :=
  match outcome with
  | CallOutcome.success response => Except.ok response.data
  | CallOutcome.failure error => Except.error error

/-- Raw `putWithoutBaseResponse`. -/
def putWithoutBaseResponse (url : String) (data : JsValue) (outcome : CallOutcome) :
    Except JsError JsValue :=
  match outcome with
  | CallOutcome.success response => Except.ok response.data
  | CallOutcome.failure error => Except.error error

/-- Raw `deleteWithoutBaseResponse`. -/
def deleteWithoutBaseResponse (url : String) (outcome : CallOutcome) : Except JsError JsValue :=
  match outcome with
  | CallOutcome.success response => Except.ok response.data
  | CallOutcome.failure error => Except.error error

/-- Raw `patchWithoutBaseResponse`. -/
def patchWithoutBaseResponse (url : String) (data : JsValue) (outcome : CallOutcome) :
    Except JsError JsValue :=
  match outcome with
  | CallOutcome.success response => Except.ok response.data
  | CallOutcome.failure error => Except.error error

end Facade

/-- `CreateApiOptions` from `packages/axios/base.ts`. The optional
`getToken` accessor is a function returning the token or `null`; the
optional `onUnauthorized` hook is modelled by its presence (its body is an
opaque side effect). -/
structure CreateApiOptions where
  baseURL : String
  getToken : Option (Unit → Option String)
  onUnauthorized : Bool

/-- The static configuration of the axios instance built by `createApi`:
base URL, default headers, timeout, the retry count handed to
`axios-retry`, and whether an `onUnauthorized` hook was wired into the
response interceptor. -/
structure AxiosInstanceModel where
  baseURL : String
  headers : List (String × String)
  timeout : Nat
  retries : Nat
  hasUnauthorizedHook : Bool
  deriving DecidableEq

/-- Rendering of the template literal `` `Bearer ${options.getToken()}` ``:
a `null` token is stringified to `"null"`. -/
def bearerHeaderValue (token : Option String) : String :=
  "Bearer " ++ (match token with
                | some t => t
                | none => "null")

/-- `createApi` from `packages/axios/base.ts`: headers are
`{ 'Content-Type': 'application/json', ...(options.getToken && { Authorization: ... }) }` —
the spread is guarded only by the presence of the `getToken` function, and
the `Authorization` value interpolates whatever the function returns
(including `null`); timeout is fixed at 10000 ms and `axios-retry` is
attached with `retries: 3`. -/
def createApi (options : CreateApiOptions) : AxiosInstanceModel :=
  let headers :=
    [("Content-Type", "application/json")] ++
      (match options.getToken with
       | some f => [("Authorization", bearerHeaderValue (f ()))]
       | none => [])
  { baseURL := options.baseURL
    headers := headers
    timeout := 10000
    retries := 3
    hasUnauthorizedHook := options.onUnauthorized }

/-- The fulfilled-response interceptor installed by `createApi`:
evaluate `response.data.code` (a TypeError if the body is nullish),
invoke `options.onUnauthorized?.()` when it strictly equals `401`, then
return the response unchanged. The first component counts how many times
the hook was invoked. -/
def interceptFulfilled (hasHook : Bool) (response : AxiosResponse) :
    Nat × Except String AxiosResponse :=
  match response.data with
  | JsValue.null => (0, Except.error "TypeError: cannot read properties of null")
  | JsValue.undefined => (0, Except.error "TypeError: cannot read properties of undefined")
  | d =>
      (if jsIs401 (fieldOrUndefined d "code") && hasHook then 1 else 0,
       Except.ok response)

/-- Whether a response body carries the unauthorized signal
`body.code === 401`. -/
def bodyCodeIs401 (v : JsValue) : Bool :=
  match v with
  | JsValue.obj fields => jsIs401 ((fields.lookup "code").getD JsValue.undefined)
  | _ => false

/-- The value produced by `createApiClient(api)`: the five enveloped
methods, with the raw variants regrouped under `withoutBaseResponse`.
The methods' behavior is given by the `Facade` functions; the client value
itself carries the instance it closes over. -/
structure ApiClient where
  api : AxiosInstanceModel
  deriving DecidableEq

/-- `createApiClient` from `packages/axios/index.ts`. -/
def createApiClient (api : AxiosInstanceModel) : ApiClient :=
  { api := api }

/-- A member of the client object, as seen by a property read on it:
one of the five enveloped methods, the `withoutBaseResponse` namespace
object, or `undefined` for any other key (`Reflect.get` on a missing
property). -/
inductive ClientProp where
  | get
  | post
  | put
  | delete
  | patch
  | withoutBaseResponse
  | undefinedProp
  deriving DecidableEq

/-- `Reflect.get(apiClientInstance, prop)`: the members present on the
object returned by `createApiClient` (the raw variants were destructured
away from the top level and regrouped under `withoutBaseResponse`). -/
def clientGet (c : ApiClient) (prop : String) : ClientProp :=
  if prop == "get" then ClientProp.get
  else if prop == "post" then ClientProp.post
  else if prop == "put" then ClientProp.put
  else if prop == "delete" then ClientProp.delete
  else if prop == "patch" then ClientProp.patch
  else if prop == "withoutBaseResponse" then ClientProp.withoutBaseResponse
  else ClientProp.undefinedProp

/-- The module-level singleton state: `apiClientInstance` (initially
`null`) plus a count of the `console.warn` emissions, so that the warning
side effect of a repeated initialization is observable. -/
structure SingletonState where
  inst : Option ApiClient
  warns : Nat
  deriving DecidableEq

/-- `initApiClient` from `packages/axios/index.ts`, with the module-level
mutation made explicit state passing: if an instance is already installed,
warn and return the state otherwise unchanged; else install
`createApiClient(createApi(options))`. -/
def initApiClient (options : CreateApiOptions) (s : SingletonState) : SingletonState :=
  match s.inst with
  | some _ => { s with warns := s.warns + 1 }
  | none => { s with inst := some (createApiClient (createApi options)) }

/-- The `get` trap of the exported `request` proxy: every property access
checks the singleton; while uninitialized it throws
`API client has not been initialized. Please call initApiClient() first.`,
otherwise it returns `Reflect.get(apiClientInstance, prop)`. -/
def requestGet (s : SingletonState) (prop : String) : Except String ClientProp :=
  match s.inst with
  | none =>
      Except.error "API client has not been initialized. Please call initApiClient() first."
  | some c => Except.ok (clientGet c prop)

/-- HTTP request methods relevant to the retry policy. -/
inductive RequestMethod where
  | get
  | post
  | put
  | delete
  | patch
  deriving DecidableEq

/-- Modelled from the spec: the idempotent-method classification used by
the retry policy — `get`, `put` and `delete` are idempotent (the
`axios-retry` library that implements the classification is a dependency,
not part of this repository's sources). -/
def isIdempotentMethod : RequestMethod → Bool
  | RequestMethod.get => true
  | RequestMethod.put => true
  | RequestMethod.delete => true
  | _ => false

/-- The failure of one attempt, as the retry predicate inspects it: the
request method and whether the failure is network-class. -/
structure RetryAxiosError where
  method : RequestMethod
  networkClass : Bool
  deriving DecidableEq

/-- Modelled from the spec: `axios-retry.isNetworkOrIdempotentRequestError`
(library code, not in this repository's sources) — per the spec, retry is
"triggered only for network-class errors or idempotent-method failures". -/
def isNetworkOrIdempotentRequestError (e : RetryAxiosError) : Bool :=
  e.networkClass || isIdempotentMethod e.method

/-- `retryDelay` passed to `axios-retry` in `createApi`:
`retryCount * 1000` ms before retry number `retryCount`. -/
def retryDelay (retryCount : Nat) : Nat :=
  retryCount * 1000

/-- `retryCondition` passed to `axios-retry` in `createApi`. -/
def retryCondition (error : RetryAxiosError) : Bool :=
  isNetworkOrIdempotentRequestError error

/-- `retries` passed to `axios-retry` in `createApi`. -/
def retriesSetting : Nat := 3

/-- Modelled from the spec: the `axios-retry` driver loop (library code,
not in this repository's sources). `outcomes k` is the result of attempt
`k` (`none` = fulfilled, `some e` = failed with `e`); while retries
remain and the failure satisfies the retry condition, wait
`retryDelayFn (k + 1)` ms and try again. Returns the total number of
attempts made and the list of inter-attempt delays. -/
def retryLoop (retryDelayFn : Nat → Nat) (cond : RetryAxiosError → Bool)
    (outcomes : Nat → Option RetryAxiosError) :
    Nat → Nat → Nat × List Nat
  | remaining, attemptIdx =>
    match outcomes attemptIdx with
    | none => (attemptIdx + 1, [])
    | some e =>
      match remaining with
      | 0 => (attemptIdx + 1, [])
      | rem + 1 =>
        if cond e then
          let rest := retryLoop retryDelayFn cond outcomes rem (attemptIdx + 1)
          (rest.fst, retryDelayFn (attemptIdx + 1) :: rest.snd)
        else (attemptIdx + 1, [])

/-- One logical call under the retry policy configured in `createApi`. -/
def runWithRetry (outcomes : Nat → Option RetryAxiosError) : Nat × List Nat :=
  retryLoop retryDelay retryCondition outcomes retriesSetting 0

/-- Whether a caught error is a transport error carrying a truthy response
body — the case in which `handleError` returns the body verbatim. -/
def verbatimBodyCase (e : JsError) : Bool :=
  match e with
  | JsError.axiosErr _ (some r) => jsTruthy r.data
  | _ => false

/-- Side condition under which an enveloped method's result has the
Envelope shape: the fulfilled body has it, and a transport error's truthy
attached body (which `handleError` passes through verbatim) has it. -/
def outcomeYieldsEnvelope (o : CallOutcome) : Bool :=
  match o with
  | CallOutcome.success r => isEnvelope r.data
  | CallOutcome.failure (JsError.axiosErr _ (some r)) => !jsTruthy r.data || isEnvelope r.data
  | CallOutcome.failure _ => true

theorem isEnvelope_synthEnvelope (m : String) (c : Int) :
    isEnvelope (synthEnvelope m c) = true := rfl

theorem isNullDataEnvelope_synthEnvelope (m : String) (c : Int) :
    isNullDataEnvelope (synthEnvelope m c) = true := rfl

theorem isEnvelope_handleError (e : JsError) (h : verbatimBodyCase e = false) :
    isEnvelope (handleError e) = true := by
  cases e with
  | axiosErr m resp =>
    cases resp with
    | none => exact isEnvelope_synthEnvelope _ _
    | some r =>
      have ht : jsTruthy r.data = false := by simpa [verbatimBodyCase] using h
      simp [handleError, ht, isEnvelope_synthEnvelope]
  | genericErr m => exact isEnvelope_synthEnvelope _ _
  | thrownValue v => exact isEnvelope_synthEnvelope _ _

/-- C1 (amended): for every verb and every outcome of the underlying call,
the enveloped method resolves — on success it returns the response body and
on any failure it returns the result of the error normalizer — and the
returned value satisfies the Envelope shape provided the fulfilled body
(respectively, the truthy body attached to a transport error, which the
normalizer passes through verbatim) has the Envelope shape. -/
theorem claim_C1 (url : String) (body : JsValue) (o : CallOutcome)
    (h : outcomeYieldsEnvelope o = true) :
    isEnvelope (Facade.get url o) = true ∧ isEnvelope (Facade.post url body o) = true ∧
    isEnvelope (Facade.put url body o) = true ∧ isEnvelope (Facade.delete url o) = true ∧
    isEnvelope (Facade.patch url body o) = true := by
  cases o with
  | success r =>
    have hr : isEnvelope r.data = true := by simpa [outcomeYieldsEnvelope] using h
    exact ⟨hr, hr, hr, hr, hr⟩
  | failure e =>
    have he : isEnvelope (handleError e) = true := by
      cases e with
      | axiosErr m resp =>
        cases resp with
        | none => exact isEnvelope_synthEnvelope _ _
        | some r =>
          by_cases ht : jsTruthy r.data = true
          · have hb : isEnvelope r.data = true := by
              simp [outcomeYieldsEnvelope, ht] at h
              exact h
            simpa [handleError, ht] using hb
          · have ht' : jsTruthy r.data = false := by simpa using ht
            simp [handleError, ht', isEnvelope_synthEnvelope]
      | genericErr m => exact isEnvelope_synthEnvelope _ _
      | thrownValue v => exact isEnvelope_synthEnvelope _ _
    exact ⟨he, he, he, he, he⟩

/-- C1 witness: a fulfilled call whose body is a well-formed envelope. -/
theorem claim_C1_witness :
    isEnvelope (Facade.get "/users"
      (CallOutcome.success ⟨200, JsValue.obj
        [("data", JsValue.null), ("msg", JsValue.str "ok"), ("code", JsValue.num 200)]⟩))
      = true :=
  (claim_C1 "/users" JsValue.null
    (CallOutcome.success ⟨200, JsValue.obj
      [("data", JsValue.null), ("msg", JsValue.str "ok"), ("code", JsValue.num 200)]⟩)
    rfl).1

/-- C1 counterexample: the claim as stated is false — a fulfilled call
whose body is a plain string resolves to that string, which does not
satisfy the Envelope shape. -/
theorem claim_C1_counterexample :
    isEnvelope (Facade.get "/demo" (CallOutcome.success ⟨200, JsValue.str "hello"⟩)) = false :=
  rfl

/-- C2 (amended): `handleError` is total, and for every input that is not
a transport error carrying a truthy response body it returns a well-formed
envelope with `data` equal to `null`, `msg` a string and `code` a number;
a transport error carrying a truthy response body is returned verbatim,
whatever its shape. -/
theorem claim_C2 (e : JsError) :
    (verbatimBodyCase e = false → isNullDataEnvelope (handleError e) = true) ∧
    (∀ (m : String) (r : AxiosResponse),
      e = JsError.axiosErr m (some r) → jsTruthy r.data = true → handleError e = r.data) := by
  constructor
  · intro h
    cases e with
    | axiosErr m resp =>
      cases resp with
      | none => exact isNullDataEnvelope_synthEnvelope _ _
      | some r =>
        have ht : jsTruthy r.data = false := by simpa [verbatimBodyCase] using h
        simp [handleError, ht, isNullDataEnvelope_synthEnvelope]
    | genericErr m => exact isNullDataEnvelope_synthEnvelope _ _
    | thrownValue v => exact isNullDataEnvelope_synthEnvelope _ _
  · intro m r he ht
    subst he
    simp [handleError, ht]

/-- C2 witness: a non-`Error` thrown value (`null`) yields the synthesized
`{ data: null, msg: '未知错误', code: 500 }` envelope. -/
theorem claim_C2_witness :
    isNullDataEnvelope (handleError (JsError.thrownValue JsValue.null)) = true :=
  (claim_C2 (JsError.thrownValue JsValue.null)).1 rfl

/-- C2 counterexample: the claim as stated is false — a transport error
carrying the truthy non-envelope body `"oops"` makes `handleError` return
that string, which is not a `{ data: null, msg, code }` envelope. -/
theorem claim_C2_counterexample :
    isNullDataEnvelope (handleError (JsError.axiosErr "m" (some ⟨400, JsValue.str "oops"⟩)))
      = false :=
  rfl

/-- C3 (amended): `handleError` returns a transport error's attached body
verbatim exactly when that body is truthy, regardless of its shape; a
transport error with a falsy body (or no response at all) yields the
synthesized envelope `{ data: null, msg: message or '请求发生错误',
code: HTTP status or 500 }`. -/
theorem claim_C3 (message : String) (r : AxiosResponse) :
    (jsTruthy r.data = true → handleError (JsError.axiosErr message (some r)) = r.data) ∧
    (jsTruthy r.data = false →
      handleError (JsError.axiosErr message (some r)) =
        synthEnvelope (if message == "" then "请求发生错误" else message)
          (if r.status == 0 then 500 else (r.status : Int))) ∧
    (handleError (JsError.axiosErr message none) =
      synthEnvelope (if message == "" then "请求发生错误" else message) 500) := by
  refine ⟨fun ht => ?_, fun ht => ?_, rfl⟩
  · simp [handleError, ht]
  · simp [handleError, ht]

/-- C3 witness: a truthy object body is passed through verbatim. -/
theorem claim_C3_witness :
    handleError (JsError.axiosErr "m" (some ⟨500, JsValue.obj [("data", JsValue.num 1)]⟩))
      = JsValue.obj [("data", JsValue.num 1)] :=
  (claim_C3 "m" ⟨500, JsValue.obj [("data", JsValue.num 1)]⟩).1 rfl

/-- C3 counterexample: the claim as stated is false — a transport error
whose body `"not-json"` does not have the Envelope shape still takes the
verbatim branch instead of yielding a synthesized envelope. -/
theorem claim_C3_counterexample :
    handleError (JsError.axiosErr "boom" (some ⟨404, JsValue.str "not-json"⟩))
        = JsValue.str "not-json" ∧
      isEnvelope (JsValue.str "not-json") = false :=
  ⟨rfl, rfl⟩

/-- C4 (amended): the client built by `createApi` always carries
`Content-Type: application/json`; it carries an `Authorization` default
header if and only if `getToken` is supplied, and the header's value is
`Bearer <token>` where a `null` token is stringified — so when `getToken`
is supplied but returns `null` the header `Authorization: Bearer null` is
still attached. -/
theorem claim_C4 (options : CreateApiOptions) :
    ((createApi options).headers.lookup "Content-Type" = some "application/json") ∧
    (options.getToken = none → (createApi options).headers.lookup "Authorization" = none) ∧
    (∀ f, options.getToken = some f →
      (createApi options).headers.lookup "Authorization"
        = some (bearerHeaderValue (f ()))) := by
  refine ⟨?_, ?_, ?_⟩
  · cases hg : options.getToken <;> simp [createApi, hg, List.lookup]
  · intro h
    simp [createApi, h, List.lookup]
  · intro f hf
    simp [createApi, hf, List.lookup]

/-- C4 witness: with no `getToken` supplied, only `Content-Type` is set
and no `Authorization` header is attached. -/
theorem claim_C4_witness :
    (createApi ⟨"https://api.example.com", none, false⟩).headers.lookup "Authorization"
      = none :=
  (claim_C4 ⟨"https://api.example.com", none, false⟩).2.1 rfl

/-- C4 counterexample: the claim as stated is false — when `getToken` is
supplied but returns `null`, the header `Authorization: Bearer null` is
attached anyway (the guard checks only the presence of the function). -/
theorem claim_C4_counterexample :
    (createApi ⟨"https://api.example.com", some (fun _ => none), false⟩).headers.lookup
        "Authorization"
      = some "Bearer null" :=
  rfl

/-- C5: for every response whose body carries `code === 401` — whatever
the HTTP transport status — the `onUnauthorized` hook is invoked exactly
once and the response is passed through unchanged; for every response
whose body code is not `401`, the hook is not invoked. -/
theorem claim_C5 (r : AxiosResponse) (hasHook : Bool) :
    (bodyCodeIs401 r.data = true → interceptFulfilled true r = (1, Except.ok r)) ∧
    (bodyCodeIs401 r.data = false → (interceptFulfilled hasHook r).fst = 0) := by
  obtain ⟨st, d⟩ := r
  constructor
  · intro h
    cases d with
    | obj fields =>
      simp only [bodyCodeIs401] at h
      simp [interceptFulfilled, fieldOrUndefined, h]
    | null => simp [bodyCodeIs401] at h
    | undefined => simp [bodyCodeIs401] at h
    | bool b => simp [bodyCodeIs401] at h
    | num n => simp [bodyCodeIs401] at h
    | str s => simp [bodyCodeIs401] at h
  · intro h
    cases d with
    | obj fields =>
      simp only [bodyCodeIs401] at h
      simp [interceptFulfilled, fieldOrUndefined, h]
    | null => simp [interceptFulfilled]
    | undefined => simp [interceptFulfilled]
    | bool b => simp [interceptFulfilled, fieldOrUndefined, jsIs401]
    | num n => simp [interceptFulfilled, fieldOrUndefined, jsIs401]
    | str s => simp [interceptFulfilled, fieldOrUndefined, jsIs401]

/-- C5 witness: the body `{ code: 401, msg: "unauthorized", data: null }`
delivered with HTTP status 200 fires the hook exactly once and the
response is returned unchanged. -/
theorem claim_C5_witness :
    interceptFulfilled true
        ⟨200, JsValue.obj [("code", JsValue.num 401), ("msg", JsValue.str "unauthorized"),
          ("data", JsValue.null)]⟩
      = (1, Except.ok ⟨200, JsValue.obj [("code", JsValue.num 401),
          ("msg", JsValue.str "unauthorized"), ("data", JsValue.null)]⟩) :=
  (claim_C5 ⟨200, JsValue.obj [("code", JsValue.num 401), ("msg", JsValue.str "unauthorized"),
    ("data", JsValue.null)]⟩ true).1 rfl

/-- C6: the singleton lifecycle is one-way — the first `initApiClient`
call installs `createApiClient(createApi(options))`; a second call emits
a warning and leaves the installed instance (and hence the first call's
configuration, e.g. `baseURL`) unchanged. -/
theorem claim_C6 (o1 o2 : CreateApiOptions) (s0 : SingletonState) (h : s0.inst = none) :
    (initApiClient o1 s0).inst = some (createApiClient (createApi o1)) ∧
    (initApiClient o2 (initApiClient o1 s0)).inst = (initApiClient o1 s0).inst ∧
    (initApiClient o2 (initApiClient o1 s0)).warns = (initApiClient o1 s0).warns + 1 ∧
    (createApiClient (createApi o1)).api.baseURL = o1.baseURL := by
  refine ⟨?_, ?_, ?_, rfl⟩ <;> simp [initApiClient, h]

/-- C6 witness: initializing twice from the empty state keeps the first
client (with its `baseURL`) and counts one warning for the second call. -/
theorem claim_C6_witness :
    (initApiClient ⟨"https://first.example", none, false⟩ ⟨none, 0⟩).inst
        = some (createApiClient (createApi ⟨"https://first.example", none, false⟩)) ∧
    (initApiClient ⟨"https://second.example", none, true⟩
          (initApiClient ⟨"https://first.example", none, false⟩ ⟨none, 0⟩)).inst
        = (initApiClient ⟨"https://first.example", none, false⟩ ⟨none, 0⟩).inst ∧
    (initApiClient ⟨"https://second.example", none, true⟩
          (initApiClient ⟨"https://first.example", none, false⟩ ⟨none, 0⟩)).warns
        = (initApiClient ⟨"https://first.example", none, false⟩ ⟨none, 0⟩).warns + 1 ∧
    (createApiClient (createApi ⟨"https://first.example", none, false⟩)).api.baseURL
        = "https://first.example" :=
  claim_C6 ⟨"https://first.example", none, false⟩ ⟨"https://second.example", none, true⟩
    ⟨none, 0⟩ rfl

/-- C7: every property access on the `request` proxy while the singleton
is uninitialized throws the explicit "not initialized" error naming
`initApiClient` — the check runs on each access, since the behavior
depends only on the current state — and after initialization every access
returns the corresponding member of the constructed client. -/
theorem claim_C7 (s : SingletonState) (prop : String) :
    (s.inst = none →
      requestGet s prop
        = Except.error
            "API client has not been initialized. Please call initApiClient() first.") ∧
    (∀ c, s.inst = some c → requestGet s prop = Except.ok (clientGet c prop)) := by
  constructor
  · intro h
    simp [requestGet, h]
  · intro c h
    simp [requestGet, h]

/-- C7 witness: accessing `get` before initialization throws the explicit
error; accessing it after initialization yields the client member. -/
theorem claim_C7_witness :
    requestGet ⟨none, 0⟩ "get"
        = Except.error
            "API client has not been initialized. Please call initApiClient() first." ∧
    requestGet ⟨some (createApiClient (createApi ⟨"https://api.example.com", none, false⟩)), 0⟩
          "get"
        = Except.ok (clientGet
            (createApiClient (createApi ⟨"https://api.example.com", none, false⟩)) "get") :=
  ⟨(claim_C7 ⟨none, 0⟩ "get").1 rfl,
   (claim_C7 ⟨some (createApiClient (createApi ⟨"https://api.example.com", none, false⟩)), 0⟩
      "get").2 _ rfl⟩

/-- C8: under the retry policy configured in `createApi` (3 retries,
linear `n * 1000` ms delay, retry only on network-class or
idempotent-method failures), a persistent network-class failure on an
idempotent method is attempted 4 times in total with inter-attempt delays
1000 ms, 2000 ms, 3000 ms; a failure that is neither network-class nor on
an idempotent method is surfaced after a single attempt. -/
theorem claim_C8 (e1 e2 : RetryAxiosError) (outcomes1 outcomes2 : Nat → Option RetryAxiosError)
    (h1 : ∀ k, outcomes1 k = some e1)
    (h2 : e1.networkClass = true)
    (h3 : isIdempotentMethod e1.method = true)
    (h4 : e2.networkClass = false)
    (h5 : isIdempotentMethod e2.method = false)
    (h6 : outcomes2 0 = some e2) :
    runWithRetry outcomes1 = (4, [1000, 2000, 3000]) ∧
    runWithRetry outcomes2 = (1, []) := by
  have hc1 : retryCondition e1 = true := by
    simp [retryCondition, isNetworkOrIdempotentRequestError, h2]
  have hc2 : retryCondition e2 = false := by
    simp [retryCondition, isNetworkOrIdempotentRequestError, h4, h5]
  constructor
  · simp [runWithRetry, retriesSetting, retryLoop, h1, hc1, retryDelay]
  · simp [runWithRetry, retriesSetting, retryLoop, h6, hc2]

/-- C8 witness: a persistently refused connection on `get` runs 4 tries
with delays 1000/2000/3000 ms; a non-network failure on `post` is not
retried. -/
theorem claim_C8_witness :
    runWithRetry (fun _ => some ⟨RequestMethod.get, true⟩) = (4, [1000, 2000, 3000]) ∧
    runWithRetry (fun _ => some ⟨RequestMethod.post, false⟩) = (1, []) :=
  claim_C8 ⟨RequestMethod.get, true⟩ ⟨RequestMethod.post, false⟩
    (fun _ => some ⟨RequestMethod.get, true⟩) (fun _ => some ⟨RequestMethod.post, false⟩)
    (fun _ => rfl) rfl rfl rfl rfl rfl

/-- C9: for every verb, the raw variant (grouped under
`withoutBaseResponse`) returns exactly the unwrapped `response.data` when
the underlying call fulfills, and propagates the original error unchanged
when it rejects — no normalization, no catch handler. -/
theorem claim_C9 (url : String) (data : JsValue) (r : AxiosResponse) (e : JsError) :
    Facade.getWithoutBaseResponse url (CallOutcome.success r) = Except.ok r.data ∧
    Facade.getWithoutBaseResponse url (CallOutcome.failure e) = Except.error e ∧
    Facade.postWithoutBaseResponse url data (CallOutcome.success r) = Except.ok r.data ∧
    Facade.postWithoutBaseResponse url data (CallOutcome.failure e) = Except.error e ∧
    Facade.putWithoutBaseResponse url data (CallOutcome.success r) = Except.ok r.data ∧
    Facade.putWithoutBaseResponse url data (CallOutcome.failure e) = Except.error e ∧
    Facade.deleteWithoutBaseResponse url (CallOutcome.success r) = Except.ok r.data ∧
    Facade.deleteWithoutBaseResponse url (CallOutcome.failure e) = Except.error e ∧
    Facade.patchWithoutBaseResponse url data (CallOutcome.success r) = Except.ok r.data ∧
    Facade.patchWithoutBaseResponse url data (CallOutcome.failure e) = Except.error e :=
  ⟨rfl, rfl, rfl, rfl, rfl, rfl, rfl, rfl, rfl, rfl⟩

/-- C10 (implicit): on every fulfilled underlying call, the enveloped
methods return the server's response body verbatim with no validation of
its shape — any body, envelope-shaped or not, is handed to the caller
as-is. -/
theorem claim_C10 (url : String) (data : JsValue) (r : AxiosResponse) :
    Facade.get url (CallOutcome.success r) = r.data ∧
    Facade.post url data (CallOutcome.success r) = r.data ∧
    Facade.put url data (CallOutcome.success r) = r.data ∧
    Facade.delete url (CallOutcome.success r) = r.data ∧
    Facade.patch url data (CallOutcome.success r) = r.data :=
  ⟨rfl, rfl, rfl, rfl, rfl⟩

end AxiosWrapper
